import Mathlib

/-!
# Verification of the repository-backed session coordinator

A shallow embedding of `RepositorySessionManager`
(`src/strands/session/repository_session_manager.py`) together with the
session entities and the session-repository interface it is written
against.  The coordinator logic is translated line by line from the
source; the entity constructors and the repository operations, whose
defining modules are not part of the analysed sources, are modelled from
the specification (sections 3 and 6) and carry doc comments saying so.

Message content and agent state are abstract type parameters `M` and `S`:
the coordinator never inspects either, it only moves them around.
-/

namespace Strands

/-- Session type enumeration (spec section 3: `enum{AGENT}`). -/
inductive SessionType where
  | AGENT
deriving DecidableEq

/-- Modelled from the spec (section 3): `Session` is
`{session_id, session_type}`. -/
structure Session where
  session_id : String
  session_type : SessionType
deriving DecidableEq

/-- Modelled from the spec (section 3): `SessionMessage` is
`{message_id, message, redact_message}` with `redact_message` optional. -/
structure SessionMessage (M : Type) where
  message_id : Nat
  message : M
  redact_message : Option M
deriving DecidableEq

/-- Modelled from the spec (section 3): `SessionMessage.from_message`
builds a record with the given content, the given index and no
redaction. -/
def SessionMessage.from_message (m : M) (idx : Nat) : SessionMessage M :=
  { message_id := idx, message := m, redact_message := none }

/-- Modelled from the spec (section 3): on read, `redact_message`, when
present, is surfaced in place of `message`. -/
def SessionMessage.to_message (sm : SessionMessage M) : M :=
  sm.redact_message.getD sm.message

/-- Modelled from the spec (section 3): `SessionAgent` is a durable
snapshot `{agent_id, state}` of one agent. -/
structure SessionAgent (S : Type) where
  agent_id : String
  state : S
deriving DecidableEq

/-- The in-memory agent object (external collaborator, spec sections 3
and 6): `agent_id`, an ordered message list, and a mutable state blob. -/
structure Agent (M S : Type) where
  agent_id : String
  messages : List M
  state : S
deriving DecidableEq

/-- Modelled from the spec (section 3): `SessionAgent.from_agent` takes a
snapshot of the agent's identity and state. -/
def SessionAgent.from_agent (agent : Agent M S) : SessionAgent S :=
  { agent_id := agent.agent_id, state := agent.state }

/-- Errors surfaced by the coordinator: `SessionException` with a message
(duplicate initialization, nothing to redact), the unhandled dictionary
`KeyError` of a cache lookup for an unknown agent_id, and a failure
raised by the repository itself. -/
inductive SessErr where
  | sessionException (msg : String)
  | keyError (key : String)
  | repositoryError
deriving DecidableEq

/-- One repository operation, as recorded in the call trace. -/
inductive RepoOp (M S : Type) where
  | create_session (s : Session)
  | read_session (sid : String)
  | create_agent (sid : String) (sa : SessionAgent S)
  | read_agent (sid : String) (aid : String)
  | update_agent (sid : String) (sa : SessionAgent S)
  | create_message (sid : String) (aid : String) (sm : SessionMessage M)
  | update_message (sid : String) (aid : String) (sm : SessionMessage M)
  | list_messages (sid : String) (aid : String)
deriving DecidableEq

/-- Association-list lookup by key (first match). -/
def getEntry [DecidableEq α] : List (α × β) → α → Option β
  | [], _ => none
  | (k', v) :: rest, k => if k' = k then some v else getEntry rest k

/-- Association-list write: replace the first binding of the key, or
append a new binding.  Models dictionary assignment. -/
def setEntry [DecidableEq α] : List (α × β) → α → β → List (α × β)
  | [], k, v => [(k, v)]
  | (k', v') :: rest, k, v =>
    if k' = k then (k, v) :: rest else (k', v') :: setEntry rest k v

/-- Membership test, modelling Python's `key in dict`. -/
def containsKey [DecidableEq α] (l : List (α × β)) (k : α) : Bool :=
  (getEntry l k).isSome

/-- Modelled from the spec (section 6): the in-memory state of a session
repository — sessions, agent snapshots keyed by (session_id, agent_id),
and per-(session_id, agent_id) message sequences in stored order. -/
structure RepoState (M S : Type) where
  sessions : List Session
  agents : List ((String × String) × SessionAgent S)
  msgs : List ((String × String) × List (SessionMessage M))
deriving DecidableEq

/-- The repository state with no records at all. -/
def emptyRepo : RepoState M S :=
  { sessions := [], agents := [], msgs := [] }

/-- The whole observable state: the coordinator's fields (`session_id`
and the latest-message cache `_latest_agent_message`), the repository
store it talks to, and the trace of repository operations issued so
far. -/
structure World (M S : Type) where
  session_id : String
  cache : List (String × Option (SessionMessage M))
  repo : RepoState M S
  trace : List (RepoOp M S)
deriving DecidableEq

/-- The message list stored for `(sid, aid)` (empty when absent). -/
def msgsOf (w : World M S) (sid : String) (aid : String) : List (SessionMessage M) :=
  (getEntry w.repo.msgs (sid, aid)).getD []

/-- Modelled from the spec (section 6): `read_session` looks a session up
by id; a read is recorded in the trace. -/
def World.read_session (w : World M S) (sid : String) : Option Session × World M S :=
  (w.repo.sessions.find? (fun s => s.session_id == sid),
   { w with trace := w.trace ++ [RepoOp.read_session sid] })

/-- Modelled from the spec (section 6): `create_session` persists a new
session record. -/
def World.create_session (w : World M S) (s : Session) : World M S :=
  { w with repo := { w.repo with sessions := w.repo.sessions ++ [s] },
           trace := w.trace ++ [RepoOp.create_session s] }

/-- Modelled from the spec (section 6): `read_agent` looks an agent
snapshot up by (session_id, agent_id). -/
def World.read_agent (w : World M S) (sid : String) (aid : String) :
    Option (SessionAgent S) × World M S :=
  (getEntry w.repo.agents (sid, aid),
   { w with trace := w.trace ++ [RepoOp.read_agent sid aid] })

/-- Modelled from the spec (section 6): `create_agent` persists a new
agent snapshot. -/
def World.create_agent (w : World M S) (sid : String) (sa : SessionAgent S) : World M S :=
  { w with repo := { w.repo with agents := setEntry w.repo.agents (sid, sa.agent_id) sa },
           trace := w.trace ++ [RepoOp.create_agent sid sa] }

/-- Modelled from the spec (section 6): `update_agent` overwrites the
snapshot stored for (session_id, agent_id). -/
def World.update_agent (w : World M S) (sid : String) (sa : SessionAgent S) : World M S :=
  { w with repo := { w.repo with agents := setEntry w.repo.agents (sid, sa.agent_id) sa },
           trace := w.trace ++ [RepoOp.update_agent sid sa] }

/-- Modelled from the spec (section 6): `create_message` persists a new
message at the end of the agent's stored sequence; the caller guarantees
the next-in-sequence message_id. -/
def World.create_message (w : World M S) (sid : String) (aid : String)
    (sm : SessionMessage M) : World M S :=
  { w with
    repo := { w.repo with
              msgs := setEntry w.repo.msgs (sid, aid) (msgsOf w sid aid ++ [sm]) },
    trace := w.trace ++ [RepoOp.create_message sid aid sm] }

/-- Modelled from the spec (section 6): `update_message` overwrites the
stored message carrying the same message_id (used for redaction). -/
def World.update_message (w : World M S) (sid : String) (aid : String)
    (sm : SessionMessage M) : World M S :=
  { w with
    repo := { w.repo with
              msgs := setEntry w.repo.msgs (sid, aid)
                ((msgsOf w sid aid).map
                  (fun x => if x.message_id = sm.message_id then sm else x)) },
    trace := w.trace ++ [RepoOp.update_message sid aid sm] }

/-- Modelled from the spec (section 6): `list_messages` returns the
stored sequence for (session_id, agent_id).  The section-6 guarantee that
it is ascending by message_id holds in every state the coordinator
produces, because the coordinator creates next-in-sequence ids; where a
claim relies on that order it is taken as an explicit hypothesis. -/
def World.list_messages (w : World M S) (sid : String) (aid : String) :
    List (SessionMessage M) × World M S :=
  (msgsOf w sid aid, { w with trace := w.trace ++ [RepoOp.list_messages sid aid] })

/-- `RepositorySessionManager.__init__` (source lines 25-52): read the
session, create it if absent, and start with an empty latest-message
cache.  (The stored `self.session` attribute is not used by any of the
modelled operations and is not carried.) -/
def mkManager (session_id : String) (repo0 : RepoState M S) : World M S :=
  let w0 : World M S := { session_id := session_id, cache := [], repo := repo0, trace := [] }
  let p := w0.read_session session_id
  match p.1 with
  | none => p.2.create_session { session_id := session_id, session_type := SessionType.AGENT }
  | some _ => p.2

/-- Result of a coordinator call that can raise: the state as observable
after the call returns or after the exception propagates, plus the
raised error if any. -/
structure StepResult (M S : Type) where
  world : World M S
  err : Option SessErr
deriving DecidableEq

/-- Result of `initialize`, which may also rebind the agent object's
fields (restore path). -/
structure InitResult (M S : Type) where
  world : World M S
  agent : Agent M S
  err : Option SessErr
deriving DecidableEq

/-- The next-index computation of `append_message` (source lines 61-66):
previous cached message_id plus one, or 0 when the cache entry is None. -/
def nextIndex : Option (SessionMessage M) → Nat
  | some lam => lam.message_id + 1
  | none => 0

/-- `RepositorySessionManager.append_message` (source lines 54-70): look
the cached latest message up (an absent key raises `KeyError`), compute
the next index, overwrite the cache with the new `SessionMessage`, then
persist it via `create_message`. -/
def append_message (w : World M S) (message : M) (agent : Agent M S) : StepResult M S :=
  match getEntry w.cache agent.agent_id with
  | none => { world := w, err := some (SessErr.keyError agent.agent_id) }
  | some latest_agent_message =>
    let session_message := SessionMessage.from_message message (nextIndex latest_agent_message)
    let w1 := { w with cache := setEntry w.cache agent.agent_id (some session_message) }
    { world := w1.create_message w1.session_id agent.agent_id session_message, err := none }

/-- `append_message` in the execution where the repository's
`create_message` call raises: source lines 61-69 run (the cache is
already overwritten), the call at line 70 raises, and the exception
propagates with no repository mutation.  The returned world is the state
observable after propagation. -/
def append_message_createFails (w : World M S) (message : M) (agent : Agent M S) :
    StepResult M S :=
  match getEntry w.cache agent.agent_id with
  | none => { world := w, err := some (SessErr.keyError agent.agent_id) }
  | some latest_agent_message =>
    let session_message := SessionMessage.from_message message (nextIndex latest_agent_message)
    { world := { w with cache := setEntry w.cache agent.agent_id (some session_message) },
      err := some SessErr.repositoryError }

/-- `RepositorySessionManager.redact_latest_message` (source lines
72-83): an absent cache key raises `KeyError`; a `None` entry raises the
"No message to redact." `SessionException`; otherwise the cached message
object's `redact_message` field is mutated in place (so the cache entry
now carries the redaction) and the mutated record is persisted via
`update_message`. -/
def redact_latest_message (w : World M S) (redactMsg : M) (agent : Agent M S) :
    StepResult M S :=
  match getEntry w.cache agent.agent_id with
  | none => { world := w, err := some (SessErr.keyError agent.agent_id) }
  | some none => { world := w, err := some (SessErr.sessionException "No message to redact.") }
  | some (some latest_agent_message) =>
    let updated := { latest_agent_message with redact_message := some redactMsg }
    let w1 := { w with cache := setEntry w.cache agent.agent_id (some updated) }
    { world := w1.update_message w1.session_id agent.agent_id updated, err := none }

/-- `RepositorySessionManager.sync_agent` (source lines 85-94): persist a
fresh snapshot of the agent via `update_agent`. -/
def sync_agent (w : World M S) (agent : Agent M S) : World M S :=
  w.update_agent w.session_id (SessionAgent.from_agent agent)

/-- The create-path loop of `initialize` (source lines 117-120): persist
each of the agent's current messages with its position as message_id.
The latest-message cache is not touched. -/
def createInitialMessages : World M S → String → List M → Nat → World M S
  | w, _, [], _ => w
  | w, aid, m :: rest, i =>
    createInitialMessages
      (w.create_message w.session_id aid (SessionMessage.from_message m i)) aid rest (i + 1)

/-- `RepositorySessionManager.initialize` (source lines 96-131), named
`initializeAgent` here.  Duplicate agent_id raises before any repository
access; otherwise the cache gets a `None` placeholder, the persisted
agent is looked up, and either the create path (persist snapshot and
current messages) or the restore path (rebind `agent.messages` and
`agent.state` from the store) runs.  Neither path writes the cache again
after the placeholder. -/
def initializeAgent (w : World M S) (agent : Agent M S) : InitResult M S :=
  if containsKey w.cache agent.agent_id then
    { world := w, agent := agent,
      err := some (SessErr.sessionException
        "The `agent_id` of an agent must be unique in a session.") }
  else
    let w1 := { w with cache := setEntry w.cache agent.agent_id none }
    let p := w1.read_agent w1.session_id agent.agent_id
    match p.1 with
    | none =>
      let session_agent := SessionAgent.from_agent agent
      let w2 := p.2.create_agent p.2.session_id session_agent
      let w3 := createInitialMessages w2 agent.agent_id agent.messages 0
      { world := w3, agent := agent, err := none }
    | some session_agent =>
      let q := p.2.list_messages p.2.session_id agent.agent_id
      { world := q.2,
        agent := { agent with
          messages := q.1.map SessionMessage.to_message,
          state := session_agent.state },
        err := none }

/-- Iterated `append_message` for the same agent, one call per list
element.  Under the preconditions of the theorems below every call
returns without error, which `appendAllOk` certifies. -/
def appendAll : World M S → Agent M S → List M → World M S
  | w, _, [] => w
  | w, agent, m :: rest => appendAll (append_message w m agent).world agent rest

/-- Every call in the `appendAll` sequence returned without error. -/
def appendAllOk : World M S → Agent M S → List M → Prop
  | _, _, [] => True
  | w, agent, m :: rest =>
    (append_message w m agent).err = none
      ∧ appendAllOk (append_message w m agent).world agent rest

/-- The `create_message` operations a sequence of appends starting at
index `i` is expected to issue: one per message, with consecutive
message_id values. -/
def expectedCreates (sid aid : String) : List M → Nat → List (RepoOp M S)
  | [], _ => []
  | m :: rest, i =>
    RepoOp.create_message sid aid (SessionMessage.from_message m i)
      :: expectedCreates sid aid rest (i + 1)

/-- The cache value after appending the given messages starting from
cache value `c`. -/
def lastAppended : Option (SessionMessage M) → List M → Option (SessionMessage M)
  | c, [] => c
  | c, m :: rest => lastAppended (some (SessionMessage.from_message m (nextIndex c))) rest

/-- Executable form of the repository-interface guarantee (spec section
6) that a stored message sequence is ascending by message_id. -/
def ascendingIds : List (SessionMessage M) → Bool
  | [] => true
  | [_] => true
  | a :: b :: rest => decide (a.message_id < b.message_id) && ascendingIds (b :: rest)

/-- The session record used by the concrete scenarios. -/
def sessS1 : Session :=
  { session_id := "s1", session_type := SessionType.AGENT }

/-- A fresh agent object with no messages. -/
def agentA : Agent Nat Nat :=
  { agent_id := "a1", messages := [], state := 0 }

/-- An agent object already holding two in-memory messages. -/
def agentB : Agent Nat Nat :=
  { agent_id := "a1", messages := [4, 5], state := 0 }

/-- An agent object whose agent_id was never initialized. -/
def agentZ : Agent Nat Nat :=
  { agent_id := "zz", messages := [], state := 0 }

/-- A repository that already holds session s1, a snapshot of agent a1,
and one persisted message for it (the restore-path scenario). -/
def repoRestore : RepoState Nat Nat :=
  { sessions := [sessS1],
    agents := [(("s1", "a1"), { agent_id := "a1", state := 1 })],
    msgs := [(("s1", "a1"), [{ message_id := 0, message := 7, redact_message := none }])] }

/-- A coordinator on an empty repository with agent a1 freshly
initialized (create path, zero messages): the cache maps "a1" to
`None`. -/
def wFresh : World Nat Nat :=
  (initializeAgent (mkManager "s1" (emptyRepo : RepoState Nat Nat)) agentA).world

/-! ## Helper lemmas -/

theorem getEntry_setEntry_self [DecidableEq α] (l : List (α × β)) (k : α) (v : β) :
    getEntry (setEntry l k v) k = some v := by
  induction l with
  | nil => simp [setEntry, getEntry]
  | cons p rest ih =>
    obtain ⟨a, b⟩ := p
    by_cases hk : a = k
    · simp [setEntry, hk, getEntry]
    · simp [setEntry, hk, getEntry, ih]

theorem getEntry_setEntry_ne [DecidableEq α] (l : List (α × β)) (k k' : α) (v : β)
    (h : k' ≠ k) : getEntry (setEntry l k v) k' = getEntry l k' := by
  induction l with
  | nil => simp [setEntry, getEntry, Ne.symm h]
  | cons p rest ih =>
    obtain ⟨a, b⟩ := p
    by_cases hk : a = k
    · subst hk
      simp [setEntry, getEntry, Ne.symm h]
    · simp [setEntry, getEntry, hk, ih]

theorem containsKey_setEntry_self [DecidableEq α] (l : List (α × β)) (k : α) (v : β) :
    containsKey (setEntry l k v) k = true := by
  simp [containsKey, getEntry_setEntry_self]

theorem containsKey_setEntry_of [DecidableEq α] (l : List (α × β)) (k k' : α) (v : β)
    (h : containsKey l k' = true) : containsKey (setEntry l k v) k' = true := by
  by_cases hk : k' = k
  · subst hk
    simp [containsKey, getEntry_setEntry_self]
  · simpa [containsKey, getEntry_setEntry_ne l k k' v hk] using h

theorem getEntry_eq_none_of_not_contains [DecidableEq α] (l : List (α × β)) (k : α)
    (h : containsKey l k = false) : getEntry l k = none := by
  cases e : getEntry l k with
  | none => rfl
  | some v => simp [containsKey, e] at h

theorem createInitialMessages_cache (w : World M S) (aid : String) (ms : List M) (i : Nat) :
    (createInitialMessages w aid ms i).cache = w.cache := by
  induction ms generalizing w i with
  | nil => rfl
  | cons m rest ih => simp [createInitialMessages, ih, World.create_message]

theorem createInitialMessages_session_id (w : World M S) (aid : String) (ms : List M)
    (i : Nat) : (createInitialMessages w aid ms i).session_id = w.session_id := by
  induction ms generalizing w i with
  | nil => rfl
  | cons m rest ih => simp [createInitialMessages, ih, World.create_message]

theorem createInitialMessages_sessions (w : World M S) (aid : String) (ms : List M)
    (i : Nat) : (createInitialMessages w aid ms i).repo.sessions = w.repo.sessions := by
  induction ms generalizing w i with
  | nil => rfl
  | cons m rest ih => simp [createInitialMessages, ih, World.create_message]

theorem map_replace_eq_self (l : List (SessionMessage M)) (k : Nat) (u : SessionMessage M)
    (h : ∀ x ∈ l, x.message_id ≠ k) :
    l.map (fun x => if x.message_id = k then u else x) = l := by
  induction l with
  | nil => rfl
  | cons a rest ih =>
    simp only [List.map_cons]
    rw [if_neg (h a (by simp))]
    rw [ih (fun x hx => h x (by simp [hx]))]

theorem lastAppended_eq : ∀ (ms : List M) (c : Option (SessionMessage M)),
    lastAppended c ms =
      match ms.getLast? with
      | none => c
      | some m =>
        some { message_id := nextIndex c + ms.length - 1, message := m, redact_message := none }
  | [], c => by simp [lastAppended]
  | [m], c => by simp [lastAppended, nextIndex, SessionMessage.from_message]
  | m :: m2 :: rest, c => by
    have ih := lastAppended_eq (m2 :: rest) (some (SessionMessage.from_message m (nextIndex c)))
    simp only [lastAppended] at ih ⊢
    rw [ih, List.getLast?_cons_cons]
    obtain ⟨mlast, hml⟩ : ∃ x, (m2 :: rest).getLast? = some x := by
      cases hg : (m2 :: rest).getLast? with
      | none => simp at hg
      | some x => exact ⟨x, rfl⟩
    rw [hml]
    simp only [nextIndex, SessionMessage.from_message, Option.some.injEq,
      SessionMessage.mk.injEq, List.length_cons]
    exact ⟨by omega, by trivial, by trivial⟩

theorem append_message_spec (w : World M S) (m : M) (agent : Agent M S)
    (c : Option (SessionMessage M)) (h : getEntry w.cache agent.agent_id = some c) :
    (append_message w m agent).err = none
    ∧ (append_message w m agent).world.session_id = w.session_id
    ∧ (append_message w m agent).world.cache
        = setEntry w.cache agent.agent_id (some (SessionMessage.from_message m (nextIndex c)))
    ∧ (append_message w m agent).world.trace
        = w.trace ++ [RepoOp.create_message w.session_id agent.agent_id
            (SessionMessage.from_message m (nextIndex c))]
    ∧ (append_message w m agent).world.repo.msgs
        = setEntry w.repo.msgs (w.session_id, agent.agent_id)
            (msgsOf w w.session_id agent.agent_id
              ++ [SessionMessage.from_message m (nextIndex c)])
    ∧ (append_message w m agent).world.repo.sessions = w.repo.sessions
    ∧ (append_message w m agent).world.repo.agents = w.repo.agents := by
  simp [append_message, h, World.create_message, msgsOf]

theorem redact_message_spec (w : World M S) (r : M) (agent : Agent M S)
    (sm : SessionMessage M) (h : getEntry w.cache agent.agent_id = some (some sm)) :
    (redact_latest_message w r agent).err = none
    ∧ (redact_latest_message w r agent).world.session_id = w.session_id
    ∧ (redact_latest_message w r agent).world.cache
        = setEntry w.cache agent.agent_id (some { sm with redact_message := some r })
    ∧ (redact_latest_message w r agent).world.trace
        = w.trace ++ [RepoOp.update_message w.session_id agent.agent_id
            { sm with redact_message := some r }]
    ∧ (redact_latest_message w r agent).world.repo.msgs
        = setEntry w.repo.msgs (w.session_id, agent.agent_id)
            ((msgsOf w w.session_id agent.agent_id).map
              (fun x => if x.message_id = sm.message_id
                then { sm with redact_message := some r } else x))
    ∧ (redact_latest_message w r agent).world.repo.sessions = w.repo.sessions
    ∧ (redact_latest_message w r agent).world.repo.agents = w.repo.agents := by
  simp [redact_latest_message, h, World.update_message, msgsOf]

theorem appendAll_spec (agent : Agent M S) (ms : List M) :
    ∀ (w : World M S) (c : Option (SessionMessage M)),
      getEntry w.cache agent.agent_id = some c →
      (appendAll w agent ms).trace
          = w.trace ++ expectedCreates w.session_id agent.agent_id ms (nextIndex c)
      ∧ getEntry (appendAll w agent ms).cache agent.agent_id = some (lastAppended c ms)
      ∧ (appendAll w agent ms).session_id = w.session_id
      ∧ appendAllOk w agent ms := by
  induction ms with
  | nil =>
    intro w c h
    exact ⟨by simp [appendAll, expectedCreates], by simpa [appendAll, lastAppended] using h,
      rfl, trivial⟩
  | cons m rest ih =>
    intro w c h
    obtain ⟨e1, e2, e3, e4, -, -, -⟩ := append_message_spec w m agent c h
    have hnext : getEntry (append_message w m agent).world.cache agent.agent_id
        = some (some (SessionMessage.from_message m (nextIndex c))) := by
      rw [e3]
      exact getEntry_setEntry_self w.cache agent.agent_id
        (some (SessionMessage.from_message m (nextIndex c)))
    obtain ⟨ht, hc, hs, hok⟩ :=
      ih (append_message w m agent).world (some (SessionMessage.from_message m (nextIndex c)))
        hnext
    have hstep : appendAll w agent (m :: rest)
        = appendAll (append_message w m agent).world agent rest := rfl
    refine ⟨?_, ?_, ?_, e1, hok⟩
    · rw [hstep, ht, e4, e2]
      simp [expectedCreates, nextIndex, SessionMessage.from_message, List.append_assoc]
    · rw [hstep]
      exact hc
    · rw [hstep, hs, e2]

/-! ## Claim theorems -/

/-- C1: the claim says that after a successful initialize the cache entry
for the agent equals its last message (create path with n >= 1 messages:
the persisted message n-1; restore path with a non-empty read: its last
element), and is None only for zero messages.  The code contradicts this
and its own stated purpose for the cache: initialize never writes the
cache after the None placeholder at line 104.  Evaluated at the failing
inputs: on the restore path with one persisted message the cache entry
stays None, so the next append reuses message_id 0 (duplicating an
existing id, against the contiguous-numbering invariant and the comment
at line 61), and on the create path with two messages the cache also
stays None instead of holding message_id 1. -/
theorem c1_cache_left_none :
    (initializeAgent (mkManager "s1" repoRestore) agentA).err = none
    ∧ msgsOf (initializeAgent (mkManager "s1" repoRestore) agentA).world "s1" "a1"
        = [{ message_id := 0, message := 7, redact_message := none }]
    ∧ getEntry (initializeAgent (mkManager "s1" repoRestore) agentA).world.cache "a1"
        = some none
    ∧ msgsOf (append_message (initializeAgent (mkManager "s1" repoRestore) agentA).world
          9 agentA).world "s1" "a1"
        = [{ message_id := 0, message := 7, redact_message := none },
           { message_id := 0, message := 9, redact_message := none }]
    ∧ (initializeAgent (mkManager "s1" (emptyRepo : RepoState Nat Nat)) agentB).err = none
    ∧ getEntry
        (initializeAgent (mkManager "s1" (emptyRepo : RepoState Nat Nat)) agentB).world.cache
        "a1" = some none
    ∧ msgsOf (initializeAgent (mkManager "s1" (emptyRepo : RepoState Nat Nat)) agentB).world
        "s1" "a1"
        = [{ message_id := 0, message := 4, redact_message := none },
           { message_id := 1, message := 5, redact_message := none }] := by
  decide

/-- C2 counterexample: the claim says that when the repository's
create_message raises inside append_message, the cache entry afterwards
equals its pre-call value.  At a freshly initialized agent (entry None) a
failing append leaves the entry holding the new message with id 0, not
None: the cache was overwritten at line 69 before the repository call at
line 70 raised. -/
theorem c2_counterexample :
    (append_message_createFails wFresh 5 agentA).err = some SessErr.repositoryError
    ∧ getEntry wFresh.cache "a1" = some none
    ∧ getEntry (append_message_createFails wFresh 5 agentA).world.cache "a1"
        = some (some { message_id := 0, message := 5, redact_message := none })
    ∧ getEntry (append_message_createFails wFresh 5 agentA).world.cache "a1"
        ≠ getEntry wFresh.cache "a1" := by
  decide

/-- C2 amended: when create_message raises inside append_message, the
exception propagates with the cache entry holding the speculatively
written new SessionMessage (content `m`, message_id `nextIndex c`) — not
the pre-call value — while the repository state and the operation trace
are unchanged, so the cache runs one index ahead of what is durable. -/
theorem c2_cache_speculative (w : World M S) (m : M) (agent : Agent M S)
    (c : Option (SessionMessage M)) (h : getEntry w.cache agent.agent_id = some c) :
    (append_message_createFails w m agent).err = some SessErr.repositoryError
    ∧ getEntry (append_message_createFails w m agent).world.cache agent.agent_id
        = some (some (SessionMessage.from_message m (nextIndex c)))
    ∧ (append_message_createFails w m agent).world.repo = w.repo
    ∧ (append_message_createFails w m agent).world.trace = w.trace := by
  simp [append_message_createFails, h, getEntry_setEntry_self]

/-- C2 amended, witness at a concrete input. -/
theorem c2_cache_speculative_witness :
    getEntry wFresh.cache agentA.agent_id
        = some (none : Option (SessionMessage Nat))
    ∧ ((append_message_createFails wFresh 5 agentA).err = some SessErr.repositoryError
        ∧ getEntry (append_message_createFails wFresh 5 agentA).world.cache agentA.agent_id
            = some (some (SessionMessage.from_message (5 : Nat)
                (nextIndex (none : Option (SessionMessage Nat)))))
        ∧ (append_message_createFails wFresh 5 agentA).world.repo = wFresh.repo
        ∧ (append_message_createFails wFresh 5 agentA).world.trace = wFresh.trace) :=
  ⟨by decide, c2_cache_speculative wFresh 5 agentA none (by decide)⟩

/-- C4: a second initialize call for an already-initialized agent_id
fails with the duplicate-initialization SessionException, and the state
(including the repository-operation trace) is exactly the pre-call state:
the error is raised before any repository access. -/
theorem c4_duplicate_init_rejected (w : World M S) (agent : Agent M S)
    (h : containsKey w.cache agent.agent_id = true) :
    initializeAgent w agent =
      { world := w, agent := agent,
        err := some (SessErr.sessionException
          "The `agent_id` of an agent must be unique in a session.") } := by
  simp [initializeAgent, h]

/-- C4 witness: after initializing agent a1, initializing an agent with
the same agent_id fails with the duplicate error and leaves the world
untouched. -/
theorem c4_duplicate_init_rejected_witness :
    containsKey wFresh.cache agentB.agent_id = true
    ∧ initializeAgent wFresh agentB =
        { world := wFresh, agent := agentB,
          err := some (SessErr.sessionException
            "The `agent_id` of an agent must be unique in a session.") } :=
  ⟨by decide, c4_duplicate_init_rejected wFresh agentB (by decide)⟩

/-- C5: redact_latest_message on an initialized agent whose cache entry
is None fails with the "No message to redact." SessionException and
leaves the state (hence the repository and its trace) exactly as it was:
no repository write occurs. -/
theorem c5_redact_without_message_fails (w : World M S) (r : M) (agent : Agent M S)
    (h : getEntry w.cache agent.agent_id = some none) :
    redact_latest_message w r agent =
      { world := w, err := some (SessErr.sessionException "No message to redact.") } := by
  simp [redact_latest_message, h]

/-- C5 witness: on the freshly initialized agent (entry None) redaction
fails with the no-message-to-redact error and changes nothing. -/
theorem c5_redact_without_message_fails_witness :
    getEntry wFresh.cache agentA.agent_id = some (none : Option (SessionMessage Nat))
    ∧ redact_latest_message wFresh 3 agentA =
        { world := wFresh,
          err := some (SessErr.sessionException "No message to redact.") } :=
  ⟨by decide, c5_redact_without_message_fails wFresh 3 agentA (by decide)⟩

/-- C3: for every sequence of append_message calls on a freshly
initialized agent with zero prior persisted messages (cache entry None),
every call succeeds, the message_id values passed to the repository's
create_message are exactly 0, 1, ..., N-1 in call order (the trace grows
by exactly those create operations), and afterwards the cache entry holds
the last appended message with message_id N-1 (still None for N = 0).
Instantiating `ms` at a prefix gives the cache entry after the k-th
call. -/
theorem c3_contiguous_message_ids (w : World M S) (agent : Agent M S) (ms : List M)
    (h : getEntry w.cache agent.agent_id = some none) :
    (appendAll w agent ms).trace
        = w.trace ++ expectedCreates w.session_id agent.agent_id ms 0
    ∧ appendAllOk w agent ms
    ∧ getEntry (appendAll w agent ms).cache agent.agent_id
        = some ((ms.getLast?).map (fun m =>
            { message_id := ms.length - 1, message := m, redact_message := none })) := by
  obtain ⟨ht, hc, hs, hok⟩ := appendAll_spec agent ms w none h
  refine ⟨by simpa [nextIndex] using ht, hok, ?_⟩
  rw [hc, lastAppended_eq]
  cases hg : ms.getLast? with
  | none => simp
  | some m => simp [nextIndex]

/-- C3 witness: appending [4, 5] to the freshly initialized agent issues
create_message with ids 0 and 1 and leaves message_id 1 cached. -/
theorem c3_contiguous_message_ids_witness :
    getEntry wFresh.cache agentA.agent_id = some (none : Option (SessionMessage Nat))
    ∧ ((appendAll wFresh agentA [4, 5]).trace
          = wFresh.trace ++ expectedCreates wFresh.session_id agentA.agent_id [4, 5] 0
        ∧ appendAllOk wFresh agentA [4, 5]
        ∧ getEntry (appendAll wFresh agentA [4, 5]).cache agentA.agent_id
            = some ((([4, 5] : List Nat).getLast?).map (fun m =>
                { message_id := ([4, 5] : List Nat).length - 1, message := m,
                  redact_message := none }))) :=
  ⟨by decide, c3_contiguous_message_ids wFresh agentA [4, 5] (by decide)⟩

/-- C6: when the latest append produced message_id `k = nextIndex c`,
redaction issues exactly one update_message at id k whose message field
and message_id are unchanged and whose redact_message equals the supplied
content; every previously stored message (all of smaller id) is left
literally untouched; and the following append persists message_id
k + 1. -/
theorem c6_redact_targets_latest (w : World M S) (agent : Agent M S) (m r m2 : M)
    (c : Option (SessionMessage M))
    (h : getEntry w.cache agent.agent_id = some c)
    (hlt : ∀ x ∈ msgsOf w w.session_id agent.agent_id, x.message_id < nextIndex c) :
    (append_message w m agent).err = none
    ∧ msgsOf (append_message w m agent).world w.session_id agent.agent_id
        = msgsOf w w.session_id agent.agent_id
          ++ [SessionMessage.from_message m (nextIndex c)]
    ∧ (redact_latest_message (append_message w m agent).world r agent).err = none
    ∧ (redact_latest_message (append_message w m agent).world r agent).world.trace
        = (append_message w m agent).world.trace
          ++ [RepoOp.update_message w.session_id agent.agent_id
              { message_id := nextIndex c, message := m, redact_message := some r }]
    ∧ msgsOf (redact_latest_message (append_message w m agent).world r agent).world
        w.session_id agent.agent_id
        = msgsOf w w.session_id agent.agent_id
          ++ [{ message_id := nextIndex c, message := m, redact_message := some r }]
    ∧ (append_message
        (redact_latest_message (append_message w m agent).world r agent).world m2 agent).err
        = none
    ∧ msgsOf (append_message
          (redact_latest_message (append_message w m agent).world r agent).world m2 agent).world
        w.session_id agent.agent_id
        = msgsOf w w.session_id agent.agent_id
          ++ [{ message_id := nextIndex c, message := m, redact_message := some r },
              { message_id := nextIndex c + 1, message := m2, redact_message := none }] := by
  obtain ⟨e1, e2, e3, e4, e5, -, -⟩ := append_message_spec w m agent c h
  have hm1 : msgsOf (append_message w m agent).world w.session_id agent.agent_id
      = msgsOf w w.session_id agent.agent_id
        ++ [SessionMessage.from_message m (nextIndex c)] := by
    simp [msgsOf, e5, getEntry_setEntry_self]
  have hc1 : getEntry (append_message w m agent).world.cache agent.agent_id
      = some (some (SessionMessage.from_message m (nextIndex c))) := by
    rw [e3]
    exact getEntry_setEntry_self _ _ _
  obtain ⟨f1, f2, f3, f4, f5, -, -⟩ :=
    redact_message_spec (append_message w m agent).world r agent
      (SessionMessage.from_message m (nextIndex c)) hc1
  rw [e2] at f2 f4 f5
  have hupd : ({ SessionMessage.from_message m (nextIndex c) with
      redact_message := some r } : SessionMessage M)
      = { message_id := nextIndex c, message := m, redact_message := some r } := rfl
  rw [hupd] at f3 f4 f5
  have hm2 : msgsOf (redact_latest_message (append_message w m agent).world r agent).world
      w.session_id agent.agent_id
      = msgsOf w w.session_id agent.agent_id
        ++ [{ message_id := nextIndex c, message := m, redact_message := some r }] := by
    have hbase : msgsOf
        (redact_latest_message (append_message w m agent).world r agent).world
        w.session_id agent.agent_id
        = (msgsOf (append_message w m agent).world w.session_id agent.agent_id).map
            (fun x => if x.message_id
                = (SessionMessage.from_message m (nextIndex c)).message_id
              then { message_id := nextIndex c, message := m, redact_message := some r }
              else x) := by
      simp [msgsOf, f5, getEntry_setEntry_self]
    rw [hbase, hm1, List.map_append]
    simp only [SessionMessage.from_message]
    rw [map_replace_eq_self _ _ _ (fun x hx => Nat.ne_of_lt (hlt x hx))]
    simp
  have hc2 : getEntry
      (redact_latest_message (append_message w m agent).world r agent).world.cache
      agent.agent_id
      = some (some ({ message_id := nextIndex c, message := m, redact_message := some r } : SessionMessage M)) := by
    rw [f3]
    exact getEntry_setEntry_self _ _ _
  obtain ⟨g1, g2, g3, g4, g5, -, -⟩ :=
    append_message_spec (redact_latest_message (append_message w m agent).world r agent).world
      m2 agent
      (some { message_id := nextIndex c, message := m, redact_message := some r }) hc2
  rw [f2] at g4 g5
  have hm3 : msgsOf (append_message
        (redact_latest_message (append_message w m agent).world r agent).world m2 agent).world
      w.session_id agent.agent_id
      = msgsOf (redact_latest_message (append_message w m agent).world r agent).world
          w.session_id agent.agent_id
        ++ [{ message_id := nextIndex c + 1, message := m2, redact_message := none }] := by
    simp [msgsOf, g5, getEntry_setEntry_self, SessionMessage.from_message, nextIndex]
  refine ⟨e1, hm1, f1, f4, hm2, g1, ?_⟩
  rw [hm3, hm2]
  simp [List.append_assoc]

/-- C6 witness: concrete append to the freshly initialized agent, with
both hypotheses checked at that input. -/
theorem c6_redact_targets_latest_witness :
    (∀ x ∈ msgsOf wFresh wFresh.session_id agentA.agent_id,
        x.message_id < nextIndex (none : Option (SessionMessage Nat)))
    ∧ msgsOf (append_message wFresh 4 agentA).world wFresh.session_id agentA.agent_id
        = msgsOf wFresh wFresh.session_id agentA.agent_id
          ++ [SessionMessage.from_message (4 : Nat)
              (nextIndex (none : Option (SessionMessage Nat)))] :=
  ⟨by decide, (c6_redact_targets_latest wFresh agentA 4 9 6 none (by decide) (by decide)).2.1⟩

/-- C7: on the restore path (a persisted SessionAgent exists), initialize
succeeds and replaces the agent object's messages wholesale with the
repository's stored sequence (ascending by message_id, per the
repository-interface guarantee taken as hypothesis) converted via
to_message, and replaces its state wholesale with the persisted snapshot
state, regardless of the agent's prior in-memory messages and state. -/
theorem c7_restore_replaces_wholesale (w : World M S) (agent : Agent M S)
    (sa : SessionAgent S)
    (h1 : containsKey w.cache agent.agent_id = false)
    (h2 : getEntry w.repo.agents (w.session_id, agent.agent_id) = some sa)
    (h3 : ascendingIds (msgsOf w w.session_id agent.agent_id) = true) :
    (initializeAgent w agent).err = none
    ∧ (initializeAgent w agent).agent.messages
        = (msgsOf w w.session_id agent.agent_id).map SessionMessage.to_message
    ∧ (initializeAgent w agent).agent.state = sa.state
    ∧ (initializeAgent w agent).agent.agent_id = agent.agent_id := by
  simp [initializeAgent, h1, World.read_agent, World.list_messages, h2, msgsOf]

/-- C7 witness: restoring agent a1 from the pre-populated repository. -/
theorem c7_restore_replaces_wholesale_witness :
    containsKey (mkManager "s1" repoRestore).cache agentA.agent_id = false
    ∧ ((initializeAgent (mkManager "s1" repoRestore) agentA).err = none
        ∧ (initializeAgent (mkManager "s1" repoRestore) agentA).agent.messages
            = (msgsOf (mkManager "s1" repoRestore) (mkManager "s1" repoRestore).session_id
                agentA.agent_id).map SessionMessage.to_message
        ∧ (initializeAgent (mkManager "s1" repoRestore) agentA).agent.state
            = ({ agent_id := "a1", state := 1 } : SessionAgent Nat).state
        ∧ (initializeAgent (mkManager "s1" repoRestore) agentA).agent.agent_id
            = agentA.agent_id) :=
  ⟨by decide, c7_restore_replaces_wholesale (mkManager "s1" repoRestore) agentA
    { agent_id := "a1", state := 1 } (by decide) (by decide) (by decide)⟩

/-- C8 counterexample: the claim says the Session record is created on
the first initialize call and that before any initialize call the
component has written no Session record.  Constructing the coordinator on
an empty repository — with no initialize call ever made — already writes
the Session record: the trace of the constructor alone is a read_session
followed by a create_session, and the store holds the session. -/
theorem c8_counterexample :
    (mkManager "s1" (emptyRepo : RepoState Nat Nat)).repo.sessions = [sessS1]
    ∧ (mkManager "s1" (emptyRepo : RepoState Nat Nat)).trace
        = [RepoOp.read_session "s1", RepoOp.create_session sessS1] := by
  decide

/-- C8 amended: when no session with the given session_id exists in the
repository, the Session record is created at coordinator construction
(so before any initialize call); initialize itself never writes a Session
record. -/
theorem c8_session_created_at_construction :
    (∀ (sid : String) (repo0 : RepoState M S),
        (∀ s ∈ repo0.sessions, ¬ s.session_id = sid) →
        (mkManager sid repo0).repo.sessions
          = repo0.sessions ++ [{ session_id := sid, session_type := SessionType.AGENT }])
    ∧ (∀ (w : World M S) (agent : Agent M S),
        (initializeAgent w agent).world.repo.sessions = w.repo.sessions) := by
  constructor
  · intro sid repo0 hnone
    have hfind : repo0.sessions.find? (fun s => s.session_id == sid) = none := by
      rw [List.find?_eq_none]
      intro x hx
      simp [hnone x hx]
    simp [mkManager, World.read_session, hfind, World.create_session]
  · intro w agent
    cases hcb : containsKey w.cache agent.agent_id with
    | true => simp [initializeAgent, hcb]
    | false =>
      cases hg : getEntry w.repo.agents (w.session_id, agent.agent_id) with
      | none =>
        simp [initializeAgent, hcb, World.read_agent, hg, World.create_agent,
          createInitialMessages_sessions]
      | some sa =>
        simp [initializeAgent, hcb, World.read_agent, hg, World.list_messages]

/-- C8 amended, witness at a concrete input. -/
theorem c8_session_created_at_construction_witness :
    (∀ s ∈ (emptyRepo : RepoState Nat Nat).sessions, ¬ s.session_id = "s1")
    ∧ (mkManager "s1" (emptyRepo : RepoState Nat Nat)).repo.sessions
        = (emptyRepo : RepoState Nat Nat).sessions
          ++ [{ session_id := "s1", session_type := SessionType.AGENT }] :=
  ⟨by decide,
   (c8_session_created_at_construction (M := Nat) (S := Nat)).1 "s1"
     (emptyRepo : RepoState Nat Nat) (by decide)⟩

/-- C9: sync_agent issues exactly one repository operation — an
update_agent carrying a fresh snapshot of the agent — and leaves the
latest-message cache, the stored messages, and the stored sessions
untouched. -/
theorem c9_sync_single_update_agent (w : World M S) (agent : Agent M S) :
    (sync_agent w agent).cache = w.cache
    ∧ (sync_agent w agent).repo.msgs = w.repo.msgs
    ∧ (sync_agent w agent).repo.sessions = w.repo.sessions
    ∧ (sync_agent w agent).repo.agents
        = setEntry w.repo.agents (w.session_id, agent.agent_id)
            (SessionAgent.from_agent agent)
    ∧ (sync_agent w agent).trace
        = w.trace ++ [RepoOp.update_agent w.session_id (SessionAgent.from_agent agent)] :=
  ⟨rfl, rfl, rfl, rfl, rfl⟩

/-- C10: for an agent_id never initialized on this coordinator instance,
append_message and redact_latest_message fail with the unhandled
key-lookup error (distinct from every SessionException) and leave the
whole state — repository included — unchanged; a successful initialize
puts the agent_id in the cache, every operation preserves cache keys, and
with the key present the cache lookup succeeds and append_message runs
without error. -/
theorem c10_uninitialized_key_error :
    (∀ (w : World M S) (m : M) (agent : Agent M S),
        containsKey w.cache agent.agent_id = false →
        append_message w m agent
          = { world := w, err := some (SessErr.keyError agent.agent_id) })
    ∧ (∀ (w : World M S) (r : M) (agent : Agent M S),
        containsKey w.cache agent.agent_id = false →
        redact_latest_message w r agent
          = { world := w, err := some (SessErr.keyError agent.agent_id) })
    ∧ (∀ (aid s : String), SessErr.keyError aid ≠ SessErr.sessionException s)
    ∧ (∀ (w : World M S) (agent : Agent M S),
        (initializeAgent w agent).err = none →
        containsKey (initializeAgent w agent).world.cache agent.agent_id = true)
    ∧ (∀ (w : World M S) (m : M) (agent agent2 : Agent M S),
        containsKey w.cache agent.agent_id = true →
        containsKey (append_message w m agent2).world.cache agent.agent_id = true
        ∧ containsKey (redact_latest_message w m agent2).world.cache agent.agent_id = true
        ∧ containsKey (sync_agent w agent2).cache agent.agent_id = true
        ∧ containsKey (initializeAgent w agent2).world.cache agent.agent_id = true)
    ∧ (∀ (w : World M S) (m : M) (agent : Agent M S),
        containsKey w.cache agent.agent_id = true →
        (append_message w m agent).err = none
        ∧ (getEntry w.cache agent.agent_id).isSome = true) := by
  refine ⟨?_, ?_, ?_, ?_, ?_, ?_⟩
  · intro w m agent h
    have hg := getEntry_eq_none_of_not_contains w.cache agent.agent_id h
    simp [append_message, hg]
  · intro w r agent h
    have hg := getEntry_eq_none_of_not_contains w.cache agent.agent_id h
    simp [redact_latest_message, hg]
  · intro aid s hcon
    exact SessErr.noConfusion hcon
  · intro w agent h
    cases hcb : containsKey w.cache agent.agent_id with
    | true => simp [initializeAgent, hcb] at h
    | false =>
      cases hg : getEntry w.repo.agents (w.session_id, agent.agent_id) with
      | none =>
        simp [initializeAgent, hcb, World.read_agent, hg, World.create_agent,
          createInitialMessages_cache, containsKey_setEntry_self]
      | some sa =>
        simp [initializeAgent, hcb, World.read_agent, hg, World.list_messages,
          containsKey_setEntry_self]
  · intro w m agent agent2 h
    refine ⟨?_, ?_, ?_, ?_⟩
    · cases hg : getEntry w.cache agent2.agent_id with
      | none => simpa [append_message, hg] using h
      | some c =>
        simp [append_message, hg, World.create_message]
        exact containsKey_setEntry_of _ _ _ _ h
    · cases hg : getEntry w.cache agent2.agent_id with
      | none => simpa [redact_latest_message, hg] using h
      | some o =>
        cases o with
        | none => simpa [redact_latest_message, hg] using h
        | some sm =>
          simp [redact_latest_message, hg, World.update_message]
          exact containsKey_setEntry_of _ _ _ _ h
    · simpa [sync_agent, World.update_agent] using h
    · cases hcb : containsKey w.cache agent2.agent_id with
      | true => simpa [initializeAgent, hcb] using h
      | false =>
        cases hg : getEntry w.repo.agents (w.session_id, agent2.agent_id) with
        | none =>
          simp [initializeAgent, hcb, World.read_agent, hg, World.create_agent,
            createInitialMessages_cache]
          exact containsKey_setEntry_of _ _ _ _ h
        | some sa =>
          simp [initializeAgent, hcb, World.read_agent, hg, World.list_messages]
          exact containsKey_setEntry_of _ _ _ _ h
  · intro w m agent h
    obtain ⟨c, hc⟩ := Option.isSome_iff_exists.mp (by simpa [containsKey] using h)
    exact ⟨(append_message_spec w m agent c hc).1, by simp [hc]⟩

/-- C10 witness: at the coordinator with only a1 initialized, operating
on the never-initialized agent_id "zz" raises the key error and changes
nothing, while a1's entry is present and append succeeds. -/
theorem c10_uninitialized_key_error_witness :
    containsKey wFresh.cache agentZ.agent_id = false
    ∧ append_message wFresh 5 agentZ
        = { world := wFresh, err := some (SessErr.keyError agentZ.agent_id) }
    ∧ containsKey wFresh.cache agentA.agent_id = true
    ∧ (append_message wFresh 5 agentA).err = none :=
  ⟨by decide,
   (c10_uninitialized_key_error (M := Nat) (S := Nat)).1 wFresh 5 agentZ (by decide),
   by decide,
   ((c10_uninitialized_key_error (M := Nat) (S := Nat)).2.2.2.2.2 wFresh 5 agentA
     (by decide)).1⟩

end Strands
